import Mathlib

/-!
Verification development for the deviceadm device-admission service.

The embedding models the admission engine (devadm/devadm.go), the mongo
data store (store/mongo, operating on an in-memory list of records), and
the remote-authenticator client response classification
(client/deviceauth/client_deviceauth.go).  Remote calls are injected as
oracle functions so that every outcome of the remote authenticator can be
analysed; the list of issued remote requests is returned alongside each
operation result.
-/

namespace Deviceadm

/-- Embedding of model.DeviceAuth.  The model package itself is not part of
the sources; the field set is taken from its uses in devadm.go and the
mongo store, and the field semantics from the spec data model (id,
deviceId, deviceIdentity, key, status, attributes, requestTime).
Timestamps are modelled as natural numbers, attributes as an ordered list
of name/value pairs. -/
structure DeviceAuth where
  ID : String
  DeviceId : String
  DeviceIdentity : String
  Key : String
  Status : String
  Attributes : List (String × String)
  RequestTime : Option Nat
deriving Repr, DecidableEq

/-- The Go zero value of model.DeviceAuth (all fields empty). -/
def emptyDeviceAuth : DeviceAuth :=
  { ID := "", DeviceId := "", DeviceIdentity := "", Key := "", Status := ""
    Attributes := [], RequestTime := none }

/-- Modelled from the spec: the status constants of the model package
(model.DevStatusPending and friends), whose source is not in the
repository snapshot; the spec fixes the status set as
pending, preauthorized, accepted, rejected. -/
def DevStatusPending : String := "pending"

def DevStatusPreauthorized : String := "preauthorized"

def DevStatusAccepted : String := "accepted"

def DevStatusRejected : String := "rejected"

/-- Unified error universe for the service: the sentinel errors of
devadm.go and the store, plus usage errors, generic failures and
pkg-errors style wrapping. -/
inductive AppError where
  | storeNotFound
  | authNotFound
  | notPreauthorized
  | authSetConflict
  | usageError (msg : String)
  | generic (msg : String)
  | wrap (msg : String) (e : AppError)
deriving Repr, DecidableEq

/-- Modelled from the spec: utils.IsUsageError (utils package absent from
the snapshot) recognises exactly the caller-attributable usage errors
produced by utils.NewUsageError. -/
def AppError.isUsageError : AppError → Bool
  | .usageError _ => true
  | _ => false

/-! ## Remote-authenticator client (client/deviceauth/client_deviceauth.go) -/

/-- deviceauth.StatusReq: body/path data of the status-update call. -/
structure StatusReq where
  DeviceId : String
  AuthId : String
  Status : String
deriving Repr, DecidableEq

/-- deviceauth.PreAuthReq: body of the pre-authorize call. -/
structure PreAuthReq where
  DeviceId : String
  AuthSetId : String
  IdData : String
  PubKey : String
deriving Repr, DecidableEq

/-- Outcome of rest_utils.ParseApiError on a 422 body: either a
well-formed structured API error (IsApiError true) or a malformed body
(parse failure). -/
inductive BodyParse where
  | apiError (msg : String)
  | malformed (msg : String)
deriving Repr, DecidableEq

/-- An HTTP response as seen by Client.UpdateDevice: numeric status code,
status text, and the parse outcome of its body. -/
structure HttpRsp where
  StatusCode : Nat
  Status : String
  Body : BodyParse
deriving Repr, DecidableEq

/-- Response classification of Client.UpdateDevice: 204 is success;
on 422 a well-formed API error becomes a usage error and a malformed body
a wrapped failure; any other code is a generic failure carrying the
status text. -/
def UpdateDevice (rsp : HttpRsp) : Option AppError :=
  if rsp.StatusCode = 204 then
    none
  else if rsp.StatusCode = 422 then
    match rsp.Body with
    | .apiError m => some (.usageError m)
    | .malformed m => some (.wrap "device status update request failed" (.generic m))
  else
    some (.generic ("device status update request failed with status " ++ rsp.Status))

/-! ## Mongo data store (store/mongo), over an in-memory record list -/

/-- genDeviceAuthUpdate: builds the $set document for an update, copying
only the fields of the argument that are non-empty (the id is never
copied; it is addressed by the update filter). -/
def genDeviceAuthUpdate (dev : DeviceAuth) : DeviceAuth :=
  { ID := emptyDeviceAuth.ID
    DeviceId := if dev.DeviceId ≠ "" then dev.DeviceId else emptyDeviceAuth.DeviceId
    Status := if dev.Status ≠ "" then dev.Status else emptyDeviceAuth.Status
    Key := if dev.Key ≠ "" then dev.Key else emptyDeviceAuth.Key
    DeviceIdentity :=
      if dev.DeviceIdentity ≠ "" then dev.DeviceIdentity else emptyDeviceAuth.DeviceIdentity
    Attributes := if dev.Attributes.length ≠ 0 then dev.Attributes else emptyDeviceAuth.Attributes
    RequestTime :=
      match dev.RequestTime with
      | some t => some t
      | none => emptyDeviceAuth.RequestTime }

/-- Modelled from the spec: the mongo $set of the serialized update
document merges field-wise into the stored record — the BSON encoding of
model.DeviceAuth (whose tags are not in the snapshot) omits empty fields,
so an empty field in the update document leaves the stored value
unchanged, as the partial-update invariant of the spec requires.  The
record id comes from the update filter and is never modified. -/
def applySet (stored upd : DeviceAuth) : DeviceAuth :=
  { ID := stored.ID
    DeviceId := if upd.DeviceId = "" then stored.DeviceId else upd.DeviceId
    DeviceIdentity := if upd.DeviceIdentity = "" then stored.DeviceIdentity else upd.DeviceIdentity
    Key := if upd.Key = "" then stored.Key else upd.Key
    Status := if upd.Status = "" then stored.Status else upd.Status
    Attributes := if upd.Attributes = [] then stored.Attributes else upd.Attributes
    RequestTime :=
      match upd.RequestTime with
      | some t => some t
      | none => stored.RequestTime }

/-- GetDeviceAuth: find the record with the given id, or ErrNotFound. -/
def GetDeviceAuth (db : List DeviceAuth) (id : String) : Except AppError DeviceAuth :=
  match db.find? (fun d => d.ID = id) with
  | some d => .ok d
  | none => .error .storeNotFound

/-- PutDeviceAuth: upsert keyed by id — the first record whose id matches
receives the $set of genDeviceAuthUpdate; if none matches, a fresh record
is created from the filter id and the $set document. -/
def PutDeviceAuth : List DeviceAuth → DeviceAuth → List DeviceAuth
  | [], dev => [applySet { emptyDeviceAuth with ID := dev.ID } (genDeviceAuthUpdate dev)]
  | d :: rest, dev =>
    if d.ID = dev.ID then applySet d (genDeviceAuthUpdate dev) :: rest
    else d :: PutDeviceAuth rest dev

/-- Update half of UpdateDeviceAuth: $set on the first matching record,
none when no record has the id. -/
def updateDeviceAuthDb : List DeviceAuth → DeviceAuth → Option (List DeviceAuth)
  | [], _ => none
  | d :: rest, dev =>
    if d.ID = dev.ID then some (applySet d (genDeviceAuthUpdate dev) :: rest)
    else (updateDeviceAuthDb rest dev).map (d :: ·)

/-- UpdateDeviceAuth: like PutDeviceAuth but fails with ErrNotFound when
no record carries the id. -/
def UpdateDeviceAuth (db : List DeviceAuth) (dev : DeviceAuth) : Except AppError (List DeviceAuth) :=
  match updateDeviceAuthDb db dev with
  | some db2 => .ok db2
  | none => .error .storeNotFound

/-- InsertDeviceAuth: assigns fresh identifiers to the record (both the
auth-set id and the device id are overwritten with newly generated
object ids, modelled as parameters) and appends it.  Returns the stored
record alongside the new store, mirroring the in-place mutation of the
Go argument. -/
def InsertDeviceAuth (newAuthId newDeviceId : String) (db : List DeviceAuth)
    (dev : DeviceAuth) : List DeviceAuth × DeviceAuth :=
  let dev2 := { dev with ID := newAuthId, DeviceId := newDeviceId }
  (db ++ [dev2], dev2)

/-- GetDeviceAuthsByIdentityData: all records whose identity data equals
the argument. -/
def GetDeviceAuthsByIdentityData (db : List DeviceAuth) (idata : String) : List DeviceAuth :=
  db.filter (fun d => d.DeviceIdentity = idata)

/-- DeleteDeviceAuthByDevice of the mongo store.  The removeErr parameter
injects the error outcome of the underlying RemoveAll; the switch mirrors
the source: a RemoveAll error returns nil (the store state is left as it
was), zero records removed without error returns ErrNotFound, and the
remaining branch wraps a nil error, which pkg/errors turns into nil. -/
def DeleteDeviceAuthByDevice (removeErr : Option String) (db : List DeviceAuth)
    (id : String) : List DeviceAuth × Option AppError :=
  match removeErr with
  | some _ => (db, none)
  | none =>
    let removed := (db.filter (fun d => d.DeviceId = id)).length
    let db2 := db.filter (fun d => ¬ d.DeviceId = id)
    if removed = 0 then (db2, some .storeNotFound)
    else (db2, none)

/-! ## Observation helpers on the store -/

/-- The status of the stored record with the given id, if present. -/
def storedStatus (db : List DeviceAuth) (id : String) : Option String :=
  (db.find? (fun d => d.ID = id)).map (fun d => d.Status)

/-- The request time of the stored record with the given id, if present. -/
def storedRequestTime (db : List DeviceAuth) (id : String) : Option (Option Nat) :=
  (db.find? (fun d => d.ID = id)).map (fun d => d.RequestTime)

/-! ## Admission engine (devadm/devadm.go)

The remote authenticator is injected as an oracle from request to
the (optional) error returned by the client call; each engine operation
returns the new store, the returned error, and the list of remote
status-update requests it issued. -/

/-- Result of an engine operation: store after the call, returned error,
and the remote status-update requests issued during the call. -/
structure OpResult where
  db : List DeviceAuth
  err : Option AppError
  calls : List StatusReq
deriving Repr, DecidableEq

/-- The status request propagateDeviceAuthUpdate builds from a record. -/
def statusReqOf (dev : DeviceAuth) : StatusReq :=
  { DeviceId := dev.DeviceId, AuthId := dev.ID, Status := dev.Status }

/-- propagateDeviceAuthUpdate: forwards the record state to the auth
service; a usage error from the client is returned unchanged, any other
client error is wrapped. -/
def propagateDeviceAuthUpdate (remote : StatusReq → Option AppError)
    (dev : DeviceAuth) : Option AppError :=
  match remote (statusReqOf dev) with
  | none => none
  | some e => if e.isUsageError then some e else
      some (.wrap "failed to propagate device status update" e)

/-- updateDeviceAuthStatus: fetch the record, set the new status, call the
remote authenticator, and only after a successful remote call persist a
partial record carrying id, device id and status. -/
def updateDeviceAuthStatus (remote : StatusReq → Option AppError)
    (db : List DeviceAuth) (id : String) (status : String) : OpResult :=
  match GetDeviceAuth db id with
  | .error e => { db := db, err := some e, calls := [] }
  | .ok dev0 =>
    let dev := { dev0 with Status := status }
    match propagateDeviceAuthUpdate remote dev with
    | some e => { db := db, err := some e, calls := [statusReqOf dev] }
    | none =>
      let db2 := PutDeviceAuth db
        { emptyDeviceAuth with ID := dev.ID, DeviceId := dev.DeviceId, Status := dev.Status }
      { db := db2, err := none, calls := [statusReqOf dev] }

/-- AcceptDeviceAuth: transition to accepted via updateDeviceAuthStatus. -/
def AcceptDeviceAuth (remote : StatusReq → Option AppError)
    (db : List DeviceAuth) (id : String) : OpResult :=
  updateDeviceAuthStatus remote db id DevStatusAccepted

/-- RejectDeviceAuth: transition to rejected via updateDeviceAuthStatus. -/
def RejectDeviceAuth (remote : StatusReq → Option AppError)
    (db : List DeviceAuth) (id : String) : OpResult :=
  updateDeviceAuthStatus remote db id DevStatusRejected

/-- AcceptDevicePreAuth: only a record currently preauthorized may be
accepted through this path; the transition is a local store update only,
with no remote propagation call. -/
def AcceptDevicePreAuth (db : List DeviceAuth) (id : String) : OpResult :=
  match GetDeviceAuth db id with
  | .error .storeNotFound => { db := db, err := some .authNotFound, calls := [] }
  | .error e => { db := db, err := some (.wrap "failed to fetch auth set" e), calls := [] }
  | .ok dev =>
    if dev.Status ≠ DevStatusPreauthorized then
      { db := db, err := some .notPreauthorized, calls := [] }
    else
      match UpdateDeviceAuth db
          { emptyDeviceAuth with ID := dev.ID, Status := DevStatusAccepted } with
      | .error e => { db := db, err := some (.wrap "failed to update auth set" e), calls := [] }
      | .ok db2 => { db := db2, err := none, calls := [] }

/-- SubmitDeviceAuth: stamp the current time as the request time and
upsert the record.  The in-memory upsert cannot fail, so no error is
returned. -/
def SubmitDeviceAuth (now : Nat) (db : List DeviceAuth) (dev : DeviceAuth) : List DeviceAuth :=
  PutDeviceAuth db { dev with RequestTime := some now }

/-- model.AuthSet: a pre-authorization request — the DeviceId field
carries the identity data of the device to pre-authorize. -/
structure AuthSet where
  DeviceId : String
  Key : String
  Attributes : List (String × String)
deriving Repr, DecidableEq

/-- Result of PreauthorizeDevice: store after the call, returned error,
and the remote pre-authorize requests issued. -/
structure PreauthResult where
  db : List DeviceAuth
  err : Option AppError
  calls : List PreAuthReq
deriving Repr, DecidableEq

/-- PreauthorizeDevice: fail with the conflict error when any record
already carries the requested identity data; otherwise build a
preauthorized record stamped with the injected clock, insert it (fresh
identifiers assigned by the store), and propagate to the auth service,
wrapping any remote error.  The propagation wraps via pkg-errors Wrap,
which maps a nil error to nil. -/
def PreauthorizeDevice (preRemote : PreAuthReq → Option AppError)
    (newAuthId newDeviceId : String) (now : Nat)
    (db : List DeviceAuth) (authSet : AuthSet) : PreauthResult :=
  let deviceAuths := GetDeviceAuthsByIdentityData db authSet.DeviceId
  if deviceAuths.length > 0 then
    { db := db, err := some .authSetConflict, calls := [] }
  else
    let dev : DeviceAuth :=
      { emptyDeviceAuth with
        DeviceIdentity := authSet.DeviceId
        Status := DevStatusPreauthorized
        Attributes := authSet.Attributes
        Key := authSet.Key
        RequestTime := some now }
    let ins := InsertDeviceAuth newAuthId newDeviceId db dev
    let dev2 := ins.2
    let req : PreAuthReq :=
      { DeviceId := dev2.DeviceId, AuthSetId := dev2.ID
        IdData := dev2.DeviceIdentity, PubKey := dev2.Key }
    match preRemote req with
    | none => { db := ins.1, err := none, calls := [req] }
    | some e =>
      { db := ins.1
        err := some (.wrap "failed to propagate device status update" e)
        calls := [req] }

/-! ## Derived shapes and concrete fixtures used by the theorems -/

/-- The record PreauthorizeDevice persists when the duplicate check
passes, with the identifiers freshly assigned by InsertDeviceAuth. -/
def preauthRecord (newAuthId newDeviceId : String) (now : Nat) (authSet : AuthSet) : DeviceAuth :=
  { ID := newAuthId, DeviceId := newDeviceId, DeviceIdentity := authSet.DeviceId
    Key := authSet.Key, Status := DevStatusPreauthorized, Attributes := authSet.Attributes
    RequestTime := some now }

/-- The remote pre-authorize request built from the persisted record. -/
def preauthReqOf (newAuthId newDeviceId : String) (authSet : AuthSet) : PreAuthReq :=
  { DeviceId := newDeviceId, AuthSetId := newAuthId
    IdData := authSet.DeviceId, PubKey := authSet.Key }

/-- An update argument carrying only an id and a status, every other
field empty. -/
def statusOnlyUpdate (i s : String) : DeviceAuth :=
  { emptyDeviceAuth with ID := i, Status := s }

/-- A fully populated pending record used as a concrete test fixture. -/
def sampleDev : DeviceAuth :=
  { ID := "a1", DeviceId := "d1", DeviceIdentity := "idX", Key := "k1"
    Status := DevStatusPending, Attributes := [("n", "v")], RequestTime := some 5 }

/-- A store holding just the pending fixture record. -/
def sampleDb : List DeviceAuth := [sampleDev]

/-- The fixture record in the preauthorized state. -/
def samplePre : DeviceAuth := { sampleDev with Status := DevStatusPreauthorized }

/-- A store holding just the preauthorized fixture record. -/
def samplePreDb : List DeviceAuth := [samplePre]

/-- Remote status-update oracle that always succeeds. -/
def remoteNone : StatusReq → Option AppError := fun _ => none

/-- Remote status-update oracle that always reports a usage error. -/
def remoteUsage : StatusReq → Option AppError := fun _ => some (.usageError "bad request")

/-- Remote status-update oracle that always fails with a generic error. -/
def remoteFail : StatusReq → Option AppError := fun _ => some (.generic "boom")

/-- Remote pre-authorize oracle that always succeeds. -/
def preRemoteNone : PreAuthReq → Option AppError := fun _ => none

/-- Remote pre-authorize oracle that always fails with a generic error. -/
def preRemoteFail : PreAuthReq → Option AppError := fun _ => some (.generic "boom")

/-- A pre-authorization request fixture for a fresh identity. -/
def sampleAuthSet : AuthSet := { DeviceId := "idY", Key := "kk", Attributes := [] }

/-- A pre-authorization request fixture colliding with the stored
identity data of the fixture record. -/
def conflictAuthSet : AuthSet := { DeviceId := "idX", Key := "kk", Attributes := [] }

/-! ## Helper lemmas -/

lemma genDeviceAuthUpdate_eq (dev : DeviceAuth) :
    genDeviceAuthUpdate dev = { dev with ID := "" } := by
  obtain ⟨i, d, n, k, s, a, r⟩ := dev
  simp only [genDeviceAuthUpdate, emptyDeviceAuth, DeviceAuth.mk.injEq]
  refine ⟨trivial, ?_, ?_, ?_, ?_, ?_, ?_⟩
  · split <;> simp_all
  · split <;> simp_all
  · split <;> simp_all
  · split <;> simp_all
  · split <;> simp_all [List.length_eq_zero]
  · cases r <;> rfl

lemma applySet_ID (s u : DeviceAuth) : (applySet s u).ID = s.ID := rfl

lemma GetDeviceAuth_ok_iff (db : List DeviceAuth) (id : String) (dev : DeviceAuth) :
    GetDeviceAuth db id = Except.ok dev ↔ db.find? (fun d => d.ID = id) = some dev := by
  unfold GetDeviceAuth
  cases h : db.find? (fun d => d.ID = id) <;> simp

lemma ID_of_GetDeviceAuth_ok (db : List DeviceAuth) (id : String) (dev : DeviceAuth)
    (h : GetDeviceAuth db id = Except.ok dev) : dev.ID = id := by
  rw [GetDeviceAuth_ok_iff] at h
  have := List.find?_some h
  exact of_decide_eq_true this

lemma find?_PutDeviceAuth_of_found (db : List DeviceAuth) (u d : DeviceAuth)
    (h : db.find? (fun x => x.ID = u.ID) = some d) :
    (PutDeviceAuth db u).find? (fun x => x.ID = u.ID) =
      some (applySet d (genDeviceAuthUpdate u)) := by
  induction db with
  | nil => simp [List.find?] at h
  | cons a rest ih =>
    by_cases ha : a.ID = u.ID
    · rw [List.find?_cons_of_pos _ (by simpa using ha)] at h
      cases h
      simp only [PutDeviceAuth, if_pos ha]
      rw [List.find?_cons_of_pos _ (by simp [applySet_ID, ha])]
    · rw [List.find?_cons_of_neg _ (by simpa using ha)] at h
      simp only [PutDeviceAuth, if_neg ha]
      rw [List.find?_cons_of_neg _ (by simpa using ha)]
      exact ih h

lemma find?_PutDeviceAuth_other (db : List DeviceAuth) (u : DeviceAuth) (i : String)
    (hi : ¬ i = u.ID) :
    (PutDeviceAuth db u).find? (fun x => x.ID = i) = db.find? (fun x => x.ID = i) := by
  induction db with
  | nil =>
    simp only [PutDeviceAuth]
    rw [List.find?_cons_of_neg _ (by simp [applySet]; exact fun h => hi h.symm)]
  | cons a rest ih =>
    by_cases ha : a.ID = u.ID
    · simp only [PutDeviceAuth, if_pos ha]
      have h2 : ¬ a.ID = i := by rw [ha]; exact fun h => hi h.symm
      rw [List.find?_cons_of_neg _ (by simp [applySet_ID, ha]; exact fun h => hi h.symm),
        List.find?_cons_of_neg _ (by simpa using h2)]
    · simp only [PutDeviceAuth, if_neg ha]
      by_cases hai : a.ID = i
      · rw [List.find?_cons_of_pos _ (by simpa using hai), List.find?_cons_of_pos _ (by simpa using hai)]
      · rw [List.find?_cons_of_neg _ (by simpa using hai), List.find?_cons_of_neg _ (by simpa using hai)]
        exact ih

lemma updateDeviceAuthDb_eq_put (db : List DeviceAuth) (u : DeviceAuth)
    (h : (db.find? (fun x => x.ID = u.ID)).isSome) :
    updateDeviceAuthDb db u = some (PutDeviceAuth db u) := by
  induction db with
  | nil => simp [List.find?] at h
  | cons a rest ih =>
    by_cases ha : a.ID = u.ID
    · simp [updateDeviceAuthDb, PutDeviceAuth, ha]
    · rw [List.find?_cons_of_neg _ (by simpa using ha)] at h
      simp only [updateDeviceAuthDb, PutDeviceAuth, if_neg ha]
      rw [ih h]
      rfl

lemma updateDeviceAuthStatus_remoteError (remote : StatusReq → Option AppError)
    (db : List DeviceAuth) (id : String) (dev : DeviceAuth) (st : String) (e : AppError)
    (hget : GetDeviceAuth db id = Except.ok dev)
    (hrem : remote { DeviceId := dev.DeviceId, AuthId := dev.ID, Status := st } = some e) :
    updateDeviceAuthStatus remote db id st =
      { db := db
        err := some (if e.isUsageError then e
          else AppError.wrap "failed to propagate device status update" e)
        calls := [{ DeviceId := dev.DeviceId, AuthId := dev.ID, Status := st }] } := by
  unfold updateDeviceAuthStatus propagateDeviceAuthUpdate statusReqOf
  rw [hget]
  simp only [hrem]
  cases he : e.isUsageError <;> simp [he]

lemma updateDeviceAuthStatus_remoteOk (remote : StatusReq → Option AppError)
    (db : List DeviceAuth) (id : String) (dev : DeviceAuth) (st : String)
    (hget : GetDeviceAuth db id = Except.ok dev)
    (hrem : remote { DeviceId := dev.DeviceId, AuthId := dev.ID, Status := st } = none) :
    updateDeviceAuthStatus remote db id st =
      { db := PutDeviceAuth db
          { emptyDeviceAuth with ID := dev.ID, DeviceId := dev.DeviceId, Status := st }
        err := none
        calls := [{ DeviceId := dev.DeviceId, AuthId := dev.ID, Status := st }] } := by
  unfold updateDeviceAuthStatus propagateDeviceAuthUpdate statusReqOf
  rw [hget]
  simp only [hrem]

lemma find?_PutDeviceAuth_of_notfound (db : List DeviceAuth) (u : DeviceAuth)
    (h : db.find? (fun x => x.ID = u.ID) = none) :
    (PutDeviceAuth db u).find? (fun x => x.ID = u.ID) =
      some (applySet { emptyDeviceAuth with ID := u.ID } (genDeviceAuthUpdate u)) := by
  induction db with
  | nil =>
    simp only [PutDeviceAuth]
    rw [List.find?_cons_of_pos _ (by simp [applySet_ID])]
  | cons a rest ih =>
    by_cases ha : a.ID = u.ID
    · rw [List.find?_cons_of_pos _ (by simpa using ha)] at h
      cases h
    · rw [List.find?_cons_of_neg _ (by simpa using ha)] at h
      simp only [PutDeviceAuth, if_neg ha]
      rw [List.find?_cons_of_neg _ (by simpa using ha)]
      exact ih h

lemma storedRequestTime_PutDeviceAuth_frame (db : List DeviceAuth) (u : DeviceAuth)
    (hu : u.RequestTime = none)
    (hex : (db.find? (fun x => x.ID = u.ID)).isSome) (i : String) :
    storedRequestTime (PutDeviceAuth db u) i = storedRequestTime db i := by
  by_cases hi : i = u.ID
  · subst hi
    obtain ⟨d, hd⟩ := Option.isSome_iff_exists.1 hex
    unfold storedRequestTime
    rw [find?_PutDeviceAuth_of_found db u d hd, hd]
    simp [applySet, genDeviceAuthUpdate_eq, hu]
  · unfold storedRequestTime
    rw [find?_PutDeviceAuth_other db u i hi]

lemma updateDeviceAuthStatus_getError (remote : StatusReq → Option AppError)
    (db : List DeviceAuth) (id st : String) (e : AppError)
    (hget : GetDeviceAuth db id = Except.error e) :
    updateDeviceAuthStatus remote db id st = { db := db, err := some e, calls := [] } := by
  unfold updateDeviceAuthStatus
  rw [hget]

lemma storedRequestTime_updateDeviceAuthStatus (remote : StatusReq → Option AppError)
    (db : List DeviceAuth) (id st : String) (i : String) :
    storedRequestTime (updateDeviceAuthStatus remote db id st).db i = storedRequestTime db i := by
  cases hget : GetDeviceAuth db id with
  | error e => rw [updateDeviceAuthStatus_getError remote db id st e hget]
  | ok dev =>
    cases hrem : remote { DeviceId := dev.DeviceId, AuthId := dev.ID, Status := st } with
    | some e => rw [updateDeviceAuthStatus_remoteError remote db id dev st e hget hrem]
    | none =>
      rw [updateDeviceAuthStatus_remoteOk remote db id dev st hget hrem]
      apply storedRequestTime_PutDeviceAuth_frame
      · rfl
      · have hid := ID_of_GetDeviceAuth_ok db id dev hget
        have hfind := (GetDeviceAuth_ok_iff db id dev).1 hget
        have hredux :
            ({ emptyDeviceAuth with ID := dev.ID, DeviceId := dev.DeviceId, Status := st } : DeviceAuth).ID = dev.ID :=
          rfl
        rw [hredux, hid, hfind]
        rfl

lemma storedStatus_updateDeviceAuthStatus_ok (remote : StatusReq → Option AppError)
    (db : List DeviceAuth) (id : String) (dev : DeviceAuth) (st : String)
    (hget : GetDeviceAuth db id = Except.ok dev)
    (hrem : remote { DeviceId := dev.DeviceId, AuthId := dev.ID, Status := st } = none)
    (hst : ¬ st = "") :
    storedStatus (updateDeviceAuthStatus remote db id st).db id = some st := by
  rw [updateDeviceAuthStatus_remoteOk remote db id dev st hget hrem]
  have hid := ID_of_GetDeviceAuth_ok db id dev hget
  have hfind : db.find? (fun x => x.ID = dev.ID) = some dev := by
    rw [hid]; exact (GetDeviceAuth_ok_iff db id dev).1 hget
  have h2 := find?_PutDeviceAuth_of_found db
    { emptyDeviceAuth with ID := dev.ID, DeviceId := dev.DeviceId, Status := st } dev hfind
  unfold storedStatus
  rw [← hid, h2]
  simp [applySet, genDeviceAuthUpdate_eq, hst, emptyDeviceAuth]

lemma AcceptDevicePreAuth_notFound (db : List DeviceAuth) (id : String)
    (hget : GetDeviceAuth db id = Except.error AppError.storeNotFound) :
    AcceptDevicePreAuth db id = { db := db, err := some .authNotFound, calls := [] } := by
  unfold AcceptDevicePreAuth
  rw [hget]

lemma AcceptDevicePreAuth_invalid (db : List DeviceAuth) (id : String) (dev : DeviceAuth)
    (hget : GetDeviceAuth db id = Except.ok dev)
    (hst : ¬ dev.Status = DevStatusPreauthorized) :
    AcceptDevicePreAuth db id = { db := db, err := some .notPreauthorized, calls := [] } := by
  unfold AcceptDevicePreAuth
  rw [hget]
  simp [hst]

lemma AcceptDevicePreAuth_ok (db : List DeviceAuth) (id : String) (dev : DeviceAuth)
    (hget : GetDeviceAuth db id = Except.ok dev)
    (hst : dev.Status = DevStatusPreauthorized) :
    AcceptDevicePreAuth db id =
      { db := PutDeviceAuth db { emptyDeviceAuth with ID := dev.ID, Status := DevStatusAccepted }
        err := none
        calls := [] } := by
  have hid := ID_of_GetDeviceAuth_ok db id dev hget
  have hfind : db.find? (fun x => x.ID = dev.ID) = some dev := by
    rw [hid]; exact (GetDeviceAuth_ok_iff db id dev).1 hget
  have hex : (db.find? (fun x =>
      x.ID = ({ emptyDeviceAuth with ID := dev.ID, Status := DevStatusAccepted } : DeviceAuth).ID)).isSome := by
    rw [show ({ emptyDeviceAuth with ID := dev.ID, Status := DevStatusAccepted } : DeviceAuth).ID = dev.ID from rfl]
    rw [hfind]; rfl
  unfold AcceptDevicePreAuth
  rw [hget]
  simp only [hst]
  unfold UpdateDeviceAuth
  rw [updateDeviceAuthDb_eq_put _ _ hex]
  simp

lemma storedStatus_AcceptDevicePreAuth_ok (db : List DeviceAuth) (id : String) (dev : DeviceAuth)
    (hget : GetDeviceAuth db id = Except.ok dev)
    (hst : dev.Status = DevStatusPreauthorized) :
    storedStatus (AcceptDevicePreAuth db id).db id = some DevStatusAccepted := by
  rw [AcceptDevicePreAuth_ok db id dev hget hst]
  have hid := ID_of_GetDeviceAuth_ok db id dev hget
  have hfind : db.find? (fun x => x.ID = dev.ID) = some dev := by
    rw [hid]; exact (GetDeviceAuth_ok_iff db id dev).1 hget
  have h2 := find?_PutDeviceAuth_of_found db
    { emptyDeviceAuth with ID := dev.ID, Status := DevStatusAccepted } dev hfind
  unfold storedStatus
  rw [← hid, h2]
  simp [applySet, genDeviceAuthUpdate_eq, emptyDeviceAuth, DevStatusAccepted]

lemma storedRequestTime_AcceptDevicePreAuth (db : List DeviceAuth) (id : String) (i : String) :
    storedRequestTime (AcceptDevicePreAuth db id).db i = storedRequestTime db i := by
  cases hget : GetDeviceAuth db id with
  | error e =>
    unfold AcceptDevicePreAuth
    rw [hget]
    cases e <;> rfl
  | ok dev =>
    by_cases hst : dev.Status = DevStatusPreauthorized
    · rw [AcceptDevicePreAuth_ok db id dev hget hst]
      apply storedRequestTime_PutDeviceAuth_frame
      · rfl
      · have hid := ID_of_GetDeviceAuth_ok db id dev hget
        have hfind := (GetDeviceAuth_ok_iff db id dev).1 hget
        have hredux :
            ({ emptyDeviceAuth with ID := dev.ID, Status := DevStatusAccepted } : DeviceAuth).ID = dev.ID :=
          rfl
        rw [hredux, hid, hfind]
        rfl
    · rw [AcceptDevicePreAuth_invalid db id dev hget hst]

lemma storedRequestTime_SubmitDeviceAuth (now : Nat) (db : List DeviceAuth) (dev : DeviceAuth) :
    storedRequestTime (SubmitDeviceAuth now db dev) dev.ID = some (some now) := by
  unfold SubmitDeviceAuth storedRequestTime
  cases hfind : db.find? (fun x => x.ID = ({ dev with RequestTime := some now } : DeviceAuth).ID) with
  | some d =>
    rw [find?_PutDeviceAuth_of_found db _ d hfind]
    simp [applySet, genDeviceAuthUpdate_eq]
  | none =>
    rw [find?_PutDeviceAuth_of_notfound db _ hfind]
    simp [applySet, genDeviceAuthUpdate_eq]

lemma PreauthorizeDevice_conflict (preRemote : PreAuthReq → Option AppError)
    (newAuthId newDeviceId : String) (now : Nat) (db : List DeviceAuth) (authSet : AuthSet)
    (h : GetDeviceAuthsByIdentityData db authSet.DeviceId ≠ []) :
    PreauthorizeDevice preRemote newAuthId newDeviceId now db authSet =
      { db := db, err := some .authSetConflict, calls := [] } := by
  unfold PreauthorizeDevice
  rw [if_pos (List.length_pos.2 h)]

lemma PreauthorizeDevice_inserted (preRemote : PreAuthReq → Option AppError)
    (newAuthId newDeviceId : String) (now : Nat) (db : List DeviceAuth) (authSet : AuthSet)
    (h : GetDeviceAuthsByIdentityData db authSet.DeviceId = []) :
    PreauthorizeDevice preRemote newAuthId newDeviceId now db authSet =
      match preRemote (preauthReqOf newAuthId newDeviceId authSet) with
      | none =>
        { db := db ++ [preauthRecord newAuthId newDeviceId now authSet]
          err := none
          calls := [preauthReqOf newAuthId newDeviceId authSet] }
      | some e =>
        { db := db ++ [preauthRecord newAuthId newDeviceId now authSet]
          err := some (.wrap "failed to propagate device status update" e)
          calls := [preauthReqOf newAuthId newDeviceId authSet] } := by
  unfold PreauthorizeDevice
  rw [if_neg (by simp [h])]
  simp only [InsertDeviceAuth, preauthRecord, preauthReqOf, emptyDeviceAuth]

/-! ## Claim theorems -/

/-- Claim C1: for Accept and Reject on an existing record, a failing
remote UpdateDevice call leaves the store unchanged (the stored status
after the call equals the stored status before); a usage error from the
remote side is returned unchanged and any other remote error is returned
wrapped. -/
theorem accept_reject_remote_error_not_committed
    (remote : StatusReq → Option AppError) (db : List DeviceAuth) (id : String)
    (dev : DeviceAuth) (eA eR : AppError)
    (hget : GetDeviceAuth db id = Except.ok dev)
    (hremA : remote { DeviceId := dev.DeviceId, AuthId := dev.ID, Status := DevStatusAccepted } = some eA)
    (hremR : remote { DeviceId := dev.DeviceId, AuthId := dev.ID, Status := DevStatusRejected } = some eR) :
    ((AcceptDeviceAuth remote db id).db = db ∧
      storedStatus (AcceptDeviceAuth remote db id).db id = storedStatus db id ∧
      (AcceptDeviceAuth remote db id).err = some (if eA.isUsageError then eA
        else AppError.wrap "failed to propagate device status update" eA)) ∧
    ((RejectDeviceAuth remote db id).db = db ∧
      storedStatus (RejectDeviceAuth remote db id).db id = storedStatus db id ∧
      (RejectDeviceAuth remote db id).err = some (if eR.isUsageError then eR
        else AppError.wrap "failed to propagate device status update" eR)) := by
  unfold AcceptDeviceAuth RejectDeviceAuth
  rw [updateDeviceAuthStatus_remoteError remote db id dev _ eA hget hremA,
    updateDeviceAuthStatus_remoteError remote db id dev _ eR hget hremR]
  exact ⟨⟨rfl, rfl, rfl⟩, ⟨rfl, rfl, rfl⟩⟩

/-- Witness for C1 at the pending fixture with a usage-error remote. -/
theorem accept_reject_remote_error_not_committed_witness :
    ((AcceptDeviceAuth remoteUsage sampleDb "a1").db = sampleDb ∧
      storedStatus (AcceptDeviceAuth remoteUsage sampleDb "a1").db "a1" = storedStatus sampleDb "a1" ∧
      (AcceptDeviceAuth remoteUsage sampleDb "a1").err = some (AppError.usageError "bad request")) ∧
    ((RejectDeviceAuth remoteUsage sampleDb "a1").db = sampleDb ∧
      storedStatus (RejectDeviceAuth remoteUsage sampleDb "a1").db "a1" = storedStatus sampleDb "a1" ∧
      (RejectDeviceAuth remoteUsage sampleDb "a1").err = some (AppError.usageError "bad request")) := by
  simpa using accept_reject_remote_error_not_committed remoteUsage sampleDb "a1" sampleDev
    (.usageError "bad request") (.usageError "bad request") rfl rfl rfl

/-- Claim C2: a pre-authorization request whose identity data is already
carried by some stored record fails with the conflict error, inserts
nothing and issues no remote call. -/
theorem preauthorize_conflict_no_insert
    (preRemote : PreAuthReq → Option AppError) (newAuthId newDeviceId : String) (now : Nat)
    (db : List DeviceAuth) (authSet : AuthSet) (d : DeviceAuth)
    (hd : d ∈ db) (hident : d.DeviceIdentity = authSet.DeviceId) :
    PreauthorizeDevice preRemote newAuthId newDeviceId now db authSet =
      { db := db, err := some .authSetConflict, calls := [] } := by
  apply PreauthorizeDevice_conflict
  intro hnil
  have hmem : d ∈ GetDeviceAuthsByIdentityData db authSet.DeviceId := by
    unfold GetDeviceAuthsByIdentityData
    exact List.mem_filter.2 ⟨hd, by simpa using hident⟩
  rw [hnil] at hmem
  exact absurd hmem (List.not_mem_nil d)

/-- Witness for C2: pre-authorizing the identity already stored by the
fixture record is rejected with a conflict. -/
theorem preauthorize_conflict_no_insert_witness :
    PreauthorizeDevice preRemoteNone "na" "nd" 9 sampleDb conflictAuthSet =
      { db := sampleDb, err := some .authSetConflict, calls := [] } :=
  preauthorize_conflict_no_insert preRemoteNone "na" "nd" 9 sampleDb conflictAuthSet
    sampleDev (by simp [sampleDb]) rfl

/-- Claim C3: AcceptDevicePreAuth on a record that is not preauthorized
fails with the distinguished not-preauthorized error, writing nothing and
calling nothing remote; on an absent record it fails with the
domain-specific not-found error. -/
theorem acceptPreAuth_invalid_transition (db : List DeviceAuth) (id : String) :
    (∀ dev, GetDeviceAuth db id = Except.ok dev → ¬ dev.Status = DevStatusPreauthorized →
      AcceptDevicePreAuth db id = { db := db, err := some .notPreauthorized, calls := [] }) ∧
    (GetDeviceAuth db id = Except.error AppError.storeNotFound →
      AcceptDevicePreAuth db id = { db := db, err := some .authNotFound, calls := [] }) :=
  ⟨fun dev h1 h2 => AcceptDevicePreAuth_invalid db id dev h1 h2,
   fun h => AcceptDevicePreAuth_notFound db id h⟩

/-- Witness for C3 at the pending fixture and at an absent id. -/
theorem acceptPreAuth_invalid_transition_witness :
    AcceptDevicePreAuth sampleDb "a1" =
      { db := sampleDb, err := some .notPreauthorized, calls := [] } ∧
    AcceptDevicePreAuth sampleDb "zz" =
      { db := sampleDb, err := some .authNotFound, calls := [] } :=
  ⟨(acceptPreAuth_invalid_transition sampleDb "a1").1 sampleDev rfl (by decide),
   (acceptPreAuth_invalid_transition sampleDb "zz").2 rfl⟩

/-- Counterexample for C4: a successful preauthorized-to-accepted
transition through AcceptDevicePreAuth issues zero remote status-update
calls, not exactly one as the claim states. -/
theorem valid_transitions_counterexample :
    (AcceptDevicePreAuth samplePreDb "a1").err = none ∧
    storedStatus (AcceptDevicePreAuth samplePreDb "a1").db "a1" = some DevStatusAccepted ∧
    (AcceptDevicePreAuth samplePreDb "a1").calls = [] := by
  refine ⟨rfl, rfl, rfl⟩

/-- Claim C4 as amended: for pending-to-accepted via Accept,
pending-to-rejected via Reject and preauthorized-to-accepted via Accept,
a successful operation stores the target status and issues exactly one
remote status-update call carrying the record identifiers and the target
status; preauthorized-to-accepted via AcceptDevicePreAuth stores the
target status but issues no remote call. -/
theorem valid_transitions_amended
    (remote : StatusReq → Option AppError) (db : List DeviceAuth) (id : String) (dev : DeviceAuth)
    (hget : GetDeviceAuth db id = Except.ok dev)
    (hstat : dev.Status = DevStatusPending ∨ dev.Status = DevStatusPreauthorized)
    (hremA : remote { DeviceId := dev.DeviceId, AuthId := dev.ID, Status := DevStatusAccepted } = none)
    (hremR : remote { DeviceId := dev.DeviceId, AuthId := dev.ID, Status := DevStatusRejected } = none) :
    ((AcceptDeviceAuth remote db id).err = none ∧
      storedStatus (AcceptDeviceAuth remote db id).db id = some DevStatusAccepted ∧
      (AcceptDeviceAuth remote db id).calls =
        [{ DeviceId := dev.DeviceId, AuthId := dev.ID, Status := DevStatusAccepted }]) ∧
    ((RejectDeviceAuth remote db id).err = none ∧
      storedStatus (RejectDeviceAuth remote db id).db id = some DevStatusRejected ∧
      (RejectDeviceAuth remote db id).calls =
        [{ DeviceId := dev.DeviceId, AuthId := dev.ID, Status := DevStatusRejected }]) ∧
    (dev.Status = DevStatusPreauthorized →
      (AcceptDevicePreAuth db id).err = none ∧
      storedStatus (AcceptDevicePreAuth db id).db id = some DevStatusAccepted ∧
      (AcceptDevicePreAuth db id).calls = []) := by
  refine ⟨⟨?_, ?_, ?_⟩, ⟨?_, ?_, ?_⟩, fun hpre => ⟨?_, ?_, ?_⟩⟩
  · unfold AcceptDeviceAuth
    rw [updateDeviceAuthStatus_remoteOk remote db id dev _ hget hremA]
  · exact storedStatus_updateDeviceAuthStatus_ok remote db id dev _ hget hremA (by decide)
  · unfold AcceptDeviceAuth
    rw [updateDeviceAuthStatus_remoteOk remote db id dev _ hget hremA]
  · unfold RejectDeviceAuth
    rw [updateDeviceAuthStatus_remoteOk remote db id dev _ hget hremR]
  · exact storedStatus_updateDeviceAuthStatus_ok remote db id dev _ hget hremR (by decide)
  · unfold RejectDeviceAuth
    rw [updateDeviceAuthStatus_remoteOk remote db id dev _ hget hremR]
  · rw [AcceptDevicePreAuth_ok db id dev hget hpre]
  · exact storedStatus_AcceptDevicePreAuth_ok db id dev hget hpre
  · rw [AcceptDevicePreAuth_ok db id dev hget hpre]

/-- Witness for the amended C4 at the preauthorized fixture with an
always-succeeding remote. -/
theorem valid_transitions_amended_witness :
    ((AcceptDeviceAuth remoteNone samplePreDb "a1").err = none ∧
      storedStatus (AcceptDeviceAuth remoteNone samplePreDb "a1").db "a1" = some DevStatusAccepted ∧
      (AcceptDeviceAuth remoteNone samplePreDb "a1").calls =
        [{ DeviceId := "d1", AuthId := "a1", Status := DevStatusAccepted }]) ∧
    ((RejectDeviceAuth remoteNone samplePreDb "a1").err = none ∧
      storedStatus (RejectDeviceAuth remoteNone samplePreDb "a1").db "a1" = some DevStatusRejected ∧
      (RejectDeviceAuth remoteNone samplePreDb "a1").calls =
        [{ DeviceId := "d1", AuthId := "a1", Status := DevStatusRejected }]) ∧
    ((AcceptDevicePreAuth samplePreDb "a1").err = none ∧
      storedStatus (AcceptDevicePreAuth samplePreDb "a1").db "a1" = some DevStatusAccepted ∧
      (AcceptDevicePreAuth samplePreDb "a1").calls = []) := by
  have h := valid_transitions_amended remoteNone samplePreDb "a1" samplePre rfl
    (Or.inr rfl) rfl rfl
  exact ⟨h.1, h.2.1, h.2.2 rfl⟩

/-- Claim C5: a store update that carries only an id and a status merges
into the stored record — the status is replaced and every other stored
field keeps its prior value, through both PutDeviceAuth and
UpdateDeviceAuth. -/
theorem partial_update_merges (db : List DeviceAuth) (d : DeviceAuth) (i s : String)
    (hfind : db.find? (fun x => x.ID = i) = some d) (hs : ¬ s = "")
    (hdid : ¬ d.DeviceId = "") (hident : ¬ d.DeviceIdentity = "") (hkey : ¬ d.Key = "")
    (hattr : ¬ d.Attributes = []) (hrt : ¬ d.RequestTime = none) :
    (PutDeviceAuth db (statusOnlyUpdate i s)).find? (fun x => x.ID = i) =
      some { d with Status := s } ∧
    UpdateDeviceAuth db (statusOnlyUpdate i s) =
      Except.ok (PutDeviceAuth db (statusOnlyUpdate i s)) := by
  have hID : (statusOnlyUpdate i s).ID = i := rfl
  constructor
  · have h2 := find?_PutDeviceAuth_of_found db (statusOnlyUpdate i s) d (by rw [hID]; exact hfind)
    rw [hID] at h2
    rw [h2]
    congr 1
    simp [applySet, genDeviceAuthUpdate_eq, statusOnlyUpdate, emptyDeviceAuth, hs]
  · unfold UpdateDeviceAuth
    rw [updateDeviceAuthDb_eq_put db (statusOnlyUpdate i s) (by rw [hID, hfind]; rfl)]

/-- Witness for C5 at the fully populated fixture record. -/
theorem partial_update_merges_witness :
    (PutDeviceAuth sampleDb (statusOnlyUpdate "a1" "accepted")).find? (fun x => x.ID = "a1") =
      some { sampleDev with Status := "accepted" } ∧
    UpdateDeviceAuth sampleDb (statusOnlyUpdate "a1" "accepted") =
      Except.ok (PutDeviceAuth sampleDb (statusOnlyUpdate "a1" "accepted")) :=
  partial_update_merges sampleDb sampleDev "a1" "accepted" rfl (by decide) (by decide)
    (by decide) (by decide) (by decide) (by decide)

/-- Claim C6: when the duplicate check passes and the local insert
succeeds but the remote pre-authorize call fails, the error is returned
wrapped and the freshly inserted record stays persisted. -/
theorem preauthorize_remote_failure_persists
    (preRemote : PreAuthReq → Option AppError) (newAuthId newDeviceId : String) (now : Nat)
    (db : List DeviceAuth) (authSet : AuthSet) (e : AppError)
    (h : GetDeviceAuthsByIdentityData db authSet.DeviceId = [])
    (hrem : preRemote (preauthReqOf newAuthId newDeviceId authSet) = some e) :
    PreauthorizeDevice preRemote newAuthId newDeviceId now db authSet =
      { db := db ++ [preauthRecord newAuthId newDeviceId now authSet]
        err := some (.wrap "failed to propagate device status update" e)
        calls := [preauthReqOf newAuthId newDeviceId authSet] } := by
  rw [PreauthorizeDevice_inserted preRemote newAuthId newDeviceId now db authSet h, hrem]

/-- Witness for C6: a failing remote pre-authorize at the fixture store
leaves the new record persisted and wraps the error. -/
theorem preauthorize_remote_failure_persists_witness :
    PreauthorizeDevice preRemoteFail "na" "nd" 9 sampleDb sampleAuthSet =
      { db := sampleDb ++ [preauthRecord "na" "nd" 9 sampleAuthSet]
        err := some (.wrap "failed to propagate device status update" (.generic "boom"))
        calls := [preauthReqOf "na" "nd" sampleAuthSet] } :=
  preauthorize_remote_failure_persists preRemoteFail "na" "nd" 9 sampleDb sampleAuthSet
    (.generic "boom") rfl rfl

/-- Claim C7: classification of the UpdateDevice response — 204 means
success; a 422 with a well-formed structured API error body is a usage
error and with a malformed body a wrapped opaque failure; every other
status code is a generic failure carrying the response status text. -/
theorem updateDevice_response_classification (rsp : HttpRsp) :
    (rsp.StatusCode = 204 → UpdateDevice rsp = none) ∧
    (rsp.StatusCode = 422 →
      (∀ m, rsp.Body = BodyParse.apiError m → UpdateDevice rsp = some (.usageError m)) ∧
      (∀ m, rsp.Body = BodyParse.malformed m →
        UpdateDevice rsp = some (.wrap "device status update request failed" (.generic m)))) ∧
    (¬ rsp.StatusCode = 204 → ¬ rsp.StatusCode = 422 →
      UpdateDevice rsp =
        some (.generic ("device status update request failed with status " ++ rsp.Status))) := by
  unfold UpdateDevice
  refine ⟨?_, ?_, ?_⟩
  · intro h
    rw [if_pos h]
  · intro h422
    constructor
    · intro m hm
      rw [if_neg (by omega), if_pos h422, hm]
    · intro m hm
      rw [if_neg (by omega), if_pos h422, hm]
  · intro h1 h2
    rw [if_neg h1, if_neg h2]

/-- Witness for C7 on three concrete responses: a 204, a well-formed 422
and a 500. -/
theorem updateDevice_response_classification_witness :
    UpdateDevice { StatusCode := 204, Status := "204 No Content", Body := .malformed "" } = none ∧
    UpdateDevice { StatusCode := 422, Status := "422", Body := .apiError "bad" } =
      some (.usageError "bad") ∧
    UpdateDevice { StatusCode := 500, Status := "500 Internal Server Error", Body := .malformed "" } =
      some (.generic "device status update request failed with status 500 Internal Server Error") := by
  refine ⟨(updateDevice_response_classification _).1 rfl,
    ((updateDevice_response_classification _).2.1 rfl).1 "bad" rfl, ?_⟩
  have h := (updateDevice_response_classification
    { StatusCode := 500, Status := "500 Internal Server Error", Body := .malformed "" }).2.2
    (by decide) (by decide)
  simpa using h

/-- Counterexample for C8: a later Submit on an already existing record
re-stamps its stored requestTime (here from 5 to 7), so requestTime is
not immutable under every subsequent engine operation. -/
theorem requestTime_restamped_counterexample :
    storedRequestTime sampleDb "a1" = some (some 5) ∧
    storedRequestTime (SubmitDeviceAuth 7 sampleDb sampleDev) "a1" = some (some 7) :=
  ⟨rfl, rfl⟩

/-- Claim C8 as amended: Accept, Reject and AcceptDevicePreAuth never
change any stored requestTime, while SubmitDeviceAuth stamps the stored
requestTime of the submitted record with the submission time — so a
repeated Submit on an existing record re-stamps it. -/
theorem requestTime_stability_amended (remote : StatusReq → Option AppError)
    (db : List DeviceAuth) (id : String) :
    (∀ i, storedRequestTime (AcceptDeviceAuth remote db id).db i = storedRequestTime db i) ∧
    (∀ i, storedRequestTime (RejectDeviceAuth remote db id).db i = storedRequestTime db i) ∧
    (∀ i, storedRequestTime (AcceptDevicePreAuth db id).db i = storedRequestTime db i) ∧
    (∀ now dev, storedRequestTime (SubmitDeviceAuth now db dev) dev.ID = some (some now)) :=
  ⟨fun i => storedRequestTime_updateDeviceAuthStatus remote db id DevStatusAccepted i,
   fun i => storedRequestTime_updateDeviceAuthStatus remote db id DevStatusRejected i,
   fun i => storedRequestTime_AcceptDevicePreAuth db id i,
   fun now dev => storedRequestTime_SubmitDeviceAuth now db dev⟩

/-- Counterexample for C9: pre-authorizing with caller identity data
"idY" creates a record whose DeviceId is the freshly assigned "nd", not
the caller-provided identifier. -/
theorem preauth_deviceId_counterexample :
    (PreauthorizeDevice preRemoteNone "na" "nd" 9 [] sampleAuthSet).db =
      [preauthRecord "na" "nd" 9 sampleAuthSet] ∧
    sampleAuthSet.DeviceId = "idY" ∧
    ¬ (preauthRecord "na" "nd" 9 sampleAuthSet).DeviceId = "idY" :=
  ⟨rfl, rfl, by decide⟩

/-- Claim C9 as amended: the record created by pre-authorization carries
the caller-provided device identifier as its deviceIdentity, while its
deviceId is the fresh identifier assigned by the store insert. -/
theorem preauth_record_identifiers_amended
    (preRemote : PreAuthReq → Option AppError) (newAuthId newDeviceId : String) (now : Nat)
    (db : List DeviceAuth) (authSet : AuthSet)
    (h : GetDeviceAuthsByIdentityData db authSet.DeviceId = []) :
    (PreauthorizeDevice preRemote newAuthId newDeviceId now db authSet).db =
      db ++ [preauthRecord newAuthId newDeviceId now authSet] ∧
    (preauthRecord newAuthId newDeviceId now authSet).DeviceId = newDeviceId ∧
    (preauthRecord newAuthId newDeviceId now authSet).DeviceIdentity = authSet.DeviceId := by
  refine ⟨?_, rfl, rfl⟩
  rw [PreauthorizeDevice_inserted preRemote newAuthId newDeviceId now db authSet h]
  cases preRemote (preauthReqOf newAuthId newDeviceId authSet) <;> rfl

/-- Witness for the amended C9 at the fixture store and a fresh
identity. -/
theorem preauth_record_identifiers_amended_witness :
    (PreauthorizeDevice preRemoteNone "na" "nd" 9 sampleDb sampleAuthSet).db =
      sampleDb ++ [preauthRecord "na" "nd" 9 sampleAuthSet] ∧
    (preauthRecord "na" "nd" 9 sampleAuthSet).DeviceId = "nd" ∧
    (preauthRecord "na" "nd" 9 sampleAuthSet).DeviceIdentity = sampleAuthSet.DeviceId :=
  preauth_record_identifiers_amended preRemoteNone "na" "nd" 9 sampleDb sampleAuthSet rfl

/-- Claim C10: the mongo DeleteDeviceAuthByDevice returns success when
the underlying removal reports an error, silently swallowing the store
failure, and returns the not-found error exactly when the removal
succeeded but removed zero records. -/
theorem deleteByDevice_error_swallowed (db : List DeviceAuth) (id : String) :
    (∀ m, (DeleteDeviceAuthByDevice (some m) db id).2 = none) ∧
    ((DeleteDeviceAuthByDevice none db id).2 = some AppError.storeNotFound ↔
      (db.filter (fun d => d.DeviceId = id)).length = 0) := by
  constructor
  · intro m
    rfl
  · unfold DeleteDeviceAuthByDevice
    by_cases h : (db.filter (fun d => d.DeviceId = id)).length = 0 <;> simp [h]

/-- Witness for the amended C8 at the fixture store. -/
theorem requestTime_stability_amended_witness :
    storedRequestTime (AcceptDeviceAuth remoteNone sampleDb "a1").db "a1" =
      storedRequestTime sampleDb "a1" ∧
    storedRequestTime (SubmitDeviceAuth 7 sampleDb sampleDev) "a1" = some (some 7) := by
  have h := requestTime_stability_amended remoteNone sampleDb "a1"
  exact ⟨h.1 "a1", h.2.2.2 7 sampleDev⟩

/-- Witness for C10 at the fixture store: an injected removal error is
swallowed; with no matching records and no error the not-found error is
reported. -/
theorem deleteByDevice_error_swallowed_witness :
    (DeleteDeviceAuthByDevice (some "disk failure") sampleDb "d1").2 = none ∧
    ((DeleteDeviceAuthByDevice none sampleDb "nope").2 = some AppError.storeNotFound ↔
      (sampleDb.filter (fun d => d.DeviceId = "nope")).length = 0) :=
  ⟨(deleteByDevice_error_swallowed sampleDb "d1").1 "disk failure",
   (deleteByDevice_error_swallowed sampleDb "nope").2⟩

end Deviceadm
